import Mathlib

/-!
Shallow embedding of the orchestration and human-in-the-loop approval core of
the legal-risk-app backend (Python), together with theorems checking the
specification's claims against it.

Source files embedded:
- `backend/app/api/approval_system.py` (`HumanApprovalSystem`, request creators)
- `backend/app/agents/base_agent.py` (`TodoListMiddleware`, `FilesystemMiddleware`)
- `backend/app/agents/legal_agents.py` (delegation tools of `LegalRiskAnalysisAgent`)

Python mutable objects are modelled by explicit state passing: each method
returns its result together with the updated state.  `uuid.uuid4()` and
`datetime.now()` are external inputs and appear as explicit parameters.
`Dict[str, Any]` payloads are modelled as insertion-ordered association lists
with string keys and string-rendered values, matching Python dict semantics
(unique keys, insertion order, truthiness = nonemptiness).
-/

set_option autoImplicit false

namespace LegalRiskApp

/-- Lookup in an insertion-ordered association list, as Python `dict.get`. -/
def dictGet {α β : Type} [DecidableEq α] : List (α × β) → α → Option β
  | [], _ => none
  | (k0, v0) :: rest, k => if k0 = k then some v0 else dictGet rest k

/-- Assignment `d[k] = v` on a Python dict: replace in place when the key is
present (keeping its position), append otherwise. -/
def dictInsert {α β : Type} [DecidableEq α] : List (α × β) → α → β → List (α × β)
  | [], k, v => [(k, v)]
  | (k0, v0) :: rest, k, v =>
    if k0 = k then (k, v) :: rest else (k0, v0) :: dictInsert rest k v

/-- Deletion `del d[k]` on a Python dict (keys are unique in any state built
through `dictInsert`, so removing every occurrence is the same operation). -/
def dictErase {α β : Type} [DecidableEq α] : List (α × β) → α → List (α × β)
  | [], _ => []
  | (k0, v0) :: rest, k =>
    if k0 = k then dictErase rest k else (k0, v0) :: dictErase rest k

/-- Values of a Python dict in insertion order, as `dict.values()`. -/
def dictValues {α β : Type} (d : List (α × β)) : List β :=
  d.map Prod.snd

theorem dictGet_dictErase_self {α β : Type} [DecidableEq α]
    (d : List (α × β)) (k : α) : dictGet (dictErase d k) k = none := by
  induction d with
  | nil => rfl
  | cons kv rest ih =>
    by_cases hk : kv.1 = k
    · simpa [dictErase, hk] using ih
    · simpa [dictErase, dictGet, hk] using ih

/-- Structured payloads (`Dict[str, Any]`) as association lists of string keys
to string-rendered values. -/
abbrev Data := List (String × String)

/-- Python truthiness of an `Optional[Dict]`: `None` and the empty dict are
falsy, a nonempty dict is truthy. -/
def pyTruthy : Option Data → Bool
  | none => false
  | some d => !d.isEmpty

/-- The `ApprovalType` enumeration of `approval_system.py`. -/
inductive ApprovalType where
  | todo
  | subagentTask
  | getDocuments
  | getPageText
  | getPageImage
  | writeFile
  | editFile
  | internetSearch
  | urlContent
  deriving DecidableEq, Repr

/-- The `ApprovalStatus` enumeration of `approval_system.py`. -/
inductive ApprovalStatus where
  | pending
  | approved
  | edited
  | rejected
  deriving DecidableEq, Repr

/-- The `ApprovalRequest` pydantic model of `approval_system.py`.
Timestamps are abstract ticks supplied by the caller. -/
structure ApprovalRequest where
  id : String
  type : ApprovalType
  timestamp : Nat
  status : ApprovalStatus
  data : Data
  agent_name : String
  description : String
  highlights : Option Data
  deriving DecidableEq, Repr

/-- State of the `HumanApprovalSystem` class: the pending dict keyed by
request id and the append-only history list. -/
structure HumanApprovalSystem where
  pending_approvals : List (String × ApprovalRequest)
  approval_history : List ApprovalRequest
  deriving DecidableEq, Repr

/-- The `HumanApprovalSystem.__init__` state: both containers empty. -/
def HumanApprovalSystem.init : HumanApprovalSystem :=
  { pending_approvals := [], approval_history := [] }

/-- Method `create_approval_request`: build a PENDING request from the
supplied fields (with the generated id and current time passed in
explicitly), store it in the pending dict, return it. -/
def HumanApprovalSystem.create_approval_request (s : HumanApprovalSystem)
    (fresh_id : String) (now : Nat) (approval_type : ApprovalType) (data : Data)
    (agent_name : String) (description : String) (highlights : Option Data) :
    ApprovalRequest × HumanApprovalSystem :=
  let request : ApprovalRequest :=
    { id := fresh_id
      type := approval_type
      timestamp := now
      status := ApprovalStatus.pending
      data := data
      agent_name := agent_name
      description := description
      highlights := highlights }
  (request, { s with pending_approvals := dictInsert s.pending_approvals request.id request })

/-- Method `get_pending_approvals`: `list(self.pending_approvals.values())`. -/
def HumanApprovalSystem.get_pending_approvals (s : HumanApprovalSystem) :
    List ApprovalRequest :=
  dictValues s.pending_approvals

/-- Method `get_approval_request`: `self.pending_approvals.get(request_id)`. -/
def HumanApprovalSystem.get_approval_request (s : HumanApprovalSystem)
    (request_id : String) : Option ApprovalRequest :=
  dictGet s.pending_approvals request_id

/-- Data carried by a request after `respond_to_approval`: the source updates
`request.data` only under `status == ApprovalStatus.EDITED and modified_data`
(Python `and`, so a `None` or empty replacement leaves the original data). -/
def resolvedData (status : ApprovalStatus) (modified_data : Option Data)
    (orig : Data) : Data :=
  if status = ApprovalStatus.edited ∧ pyTruthy modified_data then
    modified_data.getD orig
  else
    orig

/-- Method `respond_to_approval`: look the id up in the pending dict; absent
ids return `None` with no state change; otherwise set the status, substitute
the data when EDITED with a truthy replacement, append the request to history
and delete it from the pending dict.  The `feedback` argument is accepted and
ignored, exactly as in the source. -/
def HumanApprovalSystem.respond_to_approval (s : HumanApprovalSystem)
    (request_id : String) (status : ApprovalStatus)
    (modified_data : Option Data) (_feedback : Option String) :
    Option ApprovalRequest × HumanApprovalSystem :=
  match dictGet s.pending_approvals request_id with
  | none => (none, s)
  | some request =>
    let request :=
      { request with
          status := status
          data := resolvedData status modified_data request.data }
    (some request,
      { s with
          approval_history := s.approval_history ++ [request]
          pending_approvals := dictErase s.pending_approvals request_id })

/-- Method `clear_pending_approvals`: extend history with the pending values
(statuses untouched) and empty the pending dict. -/
def HumanApprovalSystem.clear_pending_approvals (s : HumanApprovalSystem) :
    HumanApprovalSystem :=
  { pending_approvals := []
    approval_history := s.approval_history ++ dictValues s.pending_approvals }

/-- Method `get_approval_history`: Python `self.approval_history[-limit:]`.
For a positive `limit` this is the suffix of the `limit` most recent entries;
for `limit = 0` the slice `[-0:]` is `[0:]`, the whole list. -/
def HumanApprovalSystem.get_approval_history (s : HumanApprovalSystem)
    (limit : Nat) : List ApprovalRequest :=
  if limit = 0 then s.approval_history
  else s.approval_history.drop (s.approval_history.length - limit)

/-- Helper `create_file_operation_approval` of `approval_system.py`,
specialised descriptions included.  `content` is `Optional[str]`; its dict
rendering uses the empty string for `None`, which no claim depends on. -/
def create_file_operation_approval (s : HumanApprovalSystem)
    (fresh_id : String) (now : Nat) (operation : ApprovalType)
    (file_path : String) (content : Option String) (agent_name : String) :
    ApprovalRequest × HumanApprovalSystem :=
  let description :=
    match operation with
    | ApprovalType.writeFile => agent_name ++ " wants to write file: " ++ file_path
    | ApprovalType.editFile => agent_name ++ " wants to edit file: " ++ file_path
    | _ => agent_name ++ " wants to perform file operation"
  s.create_approval_request fresh_id now operation
    [("file_path", file_path), ("content", content.getD "")]
    agent_name description (some [("file", file_path)])

/-- One mutating operation on the approval system, used to state frame
properties over every reachable transition. -/
inductive GateOp where
  | create (fresh_id : String) (now : Nat) (t : ApprovalType) (d : Data)
      (agent : String) (descr : String) (hl : Option Data)
  | respond (request_id : String) (st : ApprovalStatus) (md : Option Data)
      (fb : Option String)
  | clear

/-- Effect of a mutating operation on the approval-system state. -/
def GateOp.apply : GateOp → HumanApprovalSystem → HumanApprovalSystem
  | GateOp.create fid now t d agent descr hl, s =>
    (s.create_approval_request fid now t d agent descr hl).2
  | GateOp.respond rid st md fb, s => (s.respond_to_approval rid st md fb).2
  | GateOp.clear, s => s.clear_pending_approvals

/-- Every operation leaves the existing history entries in place: the old
history is an unchanged prefix of the new one. -/
theorem gateOp_history_frame (op : GateOp) (s : HumanApprovalSystem) :
    (GateOp.apply op s).approval_history.take s.approval_history.length
      = s.approval_history := by
  cases op with
  | create fid now t d agent descr hl =>
    simp [GateOp.apply, HumanApprovalSystem.create_approval_request,
      List.take_length]
  | respond rid st md fb =>
    cases h : dictGet s.pending_approvals rid with
    | none =>
      simp [GateOp.apply, HumanApprovalSystem.respond_to_approval, h,
        List.take_length]
    | some req =>
      simp [GateOp.apply, HumanApprovalSystem.respond_to_approval, h,
        List.take_left]
  | clear =>
    simp [GateOp.apply, HumanApprovalSystem.clear_pending_approvals,
      List.take_left]

/-- A todo record of `TodoListMiddleware`: the dict
`{"task": ..., "status": ...}`. -/
structure TodoItem where
  task : String
  status : String
  deriving DecidableEq, Repr

/-- State of the `TodoListMiddleware` class: the ordered `todos` list. -/
structure TodoListMiddleware where
  todos : List TodoItem
  deriving DecidableEq, Repr

/-- Method `add_todo`: append a record with the given task and status (the
source defaults the status to `"pending"` at the call site). -/
def TodoListMiddleware.add_todo (m : TodoListMiddleware) (task : String)
    (status : String) : TodoListMiddleware :=
  { todos := m.todos ++ [{ task := task, status := status }] }

/-- In-place status update of the todo at position `i`. -/
def setStatusAt : List TodoItem → Nat → String → List TodoItem
  | [], _, _ => []
  | t :: ts, 0, status => { t with status := status } :: ts
  | t :: ts, i + 1, status => t :: setStatusAt ts i status

/-- Method `update_todo`: update the status when `0 <= index < len(todos)`,
a no-op otherwise.  The source index is a Python `int`, so it is an `Int`
here. -/
def TodoListMiddleware.update_todo (m : TodoListMiddleware) (index : Int)
    (status : String) : TodoListMiddleware :=
  if 0 ≤ index ∧ index < (m.todos.length : Int) then
    { todos := setStatusAt m.todos index.toNat status }
  else
    m

/-- Method `get_todos`. -/
def TodoListMiddleware.get_todos (m : TodoListMiddleware) : List TodoItem :=
  m.todos

/-- Two-state status glyph of `format_todos`. -/
def statusIcon (status : String) : String :=
  if status = "completed" then "✓" else "○"

/-- One numbered line of `format_todos` for the todo at 0-based position
`i`. -/
def todoLine (i : Nat) (t : TodoItem) : String :=
  toString (i + 1) ++ ". [" ++ statusIcon t.status ++ "] " ++ t.task
    ++ " (" ++ t.status ++ ")\n"

/-- Method `format_todos`: the fixed sentinel on an empty list, otherwise a
header line followed by one numbered line per todo. -/
def TodoListMiddleware.format_todos (m : TodoListMiddleware) : String :=
  if m.todos.isEmpty then "No todos yet."
  else
    "Current todos:\n"
      ++ String.join (m.todos.enum.map (fun p => todoLine p.1 p.2))

/-- Splitting of a character list on a separator character, accumulating the
current (reversed) piece. -/
def splitOnChar (sep : Char) : List Char → List Char → List String
  | [], cur => [String.mk cur.reverse]
  | c :: cs, cur =>
    if c = sep then String.mk cur.reverse :: splitOnChar sep cs []
    else splitOnChar sep cs (c :: cur)

/-- Lines of a rendered text, split on the newline character. -/
def linesOf (s : String) : List String :=
  splitOnChar (Char.ofNat 10) s.data []

/-- Segments of a POSIX path string, with empty segments and `"."` dropped
(they do not move the resolution). -/
def pathSegs (p : String) : List String :=
  (splitOnChar '/' p.data []).filter (fun s => s ≠ "" ∧ s ≠ ".")

/-- POSIX resolution of the remaining segments against an accumulated
absolute location: `".."` pops one directory, every other segment
descends. -/
def normalizeFrom : List String → List String → List String
  | acc, [] => acc
  | acc, seg :: rest =>
    if seg = ".." then normalizeFrom acc.dropLast rest
    else normalizeFrom (acc ++ [seg]) rest

/-- Resolution of a (relative) path string against the current working
directory of the process, as the operating system performs it when the file
is opened.  The source never normalizes or checks paths itself. -/
def resolvePath (cwd : List String) (p : String) : List String :=
  normalizeFrom cwd (pathSegs p)

/-- The host filesystem as a map from resolved absolute paths (segment
lists) to file contents.  Directories are implicit, matching the
`os.makedirs(..., exist_ok=True)` calls in the source. -/
abbrev FileSystem := List (List String × String)

/-- Contents at a resolved path, when the file exists. -/
def fsRead (fs : FileSystem) (p : List String) : Option String :=
  dictGet fs p

/-- Creation or replacement of the file at a resolved path. -/
def fsWrite (fs : FileSystem) (p : List String) (content : String) : FileSystem :=
  dictInsert fs p content

/-- The `FilesystemMiddleware` class: its only own state is `base_path`
(defaulted to `"./data/agent_workspace"` in the source). -/
structure FilesystemMiddleware where
  base_path : String
  deriving DecidableEq, Repr

/-- Method `read_file`: open `base_path + "/" + file_path` and return its
contents; on failure return the exception rendered as text through the same
`str` return channel (the source's `except` branch).  `cwd` is the process
working directory the operating system resolves the relative path
against. -/
def FilesystemMiddleware.read_file (m : FilesystemMiddleware)
    (cwd : List String) (fs : FileSystem) (file_path : String) : String :=
  let full_path := m.base_path ++ "/" ++ file_path
  match fsRead fs (resolvePath cwd full_path) with
  | some content => content
  | none => "Error reading file: [Errno 2] No such file or directory: " ++ full_path

/-- Method `write_file`: create parent directories and write
`base_path + "/" + file_path`, returning a success message.  The path is
plain string concatenation; no containment check precedes the write.  The
non-exceptional branch is modelled (the sandbox writes cannot fail). -/
def FilesystemMiddleware.write_file (m : FilesystemMiddleware)
    (cwd : List String) (fs : FileSystem) (file_path : String)
    (content : String) : String × FileSystem :=
  let full_path := m.base_path ++ "/" ++ file_path
  ("File written successfully: " ++ file_path,
    fsWrite fs (resolvePath cwd full_path) content)

/-- Per-subagent execution state: how many times the agent executor loop of
`BaseDeepAgent.run` has been entered in this session. -/
structure SubAgentState where
  loop_entries : Nat
  deriving DecidableEq, Repr

/-- Method `BaseDeepAgent.run`: enter the agent executor loop once and
return its result dict.  The loop body is the external LLM executor, so the
`"output"` entry of its result is an explicit parameter (`none` models a
result dict without that key). -/
def SubAgentState.run (st : SubAgentState) (result_output : Option String) :
    SubAgentState × Option String :=
  ({ loop_entries := st.loop_entries + 1 }, result_output)

/-- State of `LegalRiskAnalysisAgent.__init__`: the two subordinate
subagents.  The source stores no quota counter of any kind; the docstrings
announce Analysis (unlimited) and Create Report (use=1) but no field tracks
usage. -/
structure LegalRiskAnalysisAgentState where
  analysis_subagent : SubAgentState
  create_report_subagent : SubAgentState
  deriving DecidableEq, Repr

/-- The `delegate_to_analysis` tool: unconditionally
`await self.analysis_subagent.run(task)` and return
`result.get("output", "Analysis completed")`.  No quota check appears in the
source. -/
def delegate_to_analysis (st : LegalRiskAnalysisAgentState) (_task : String)
    (loop_output : Option String) : LegalRiskAnalysisAgentState × String :=
  let (sub, out) := st.analysis_subagent.run loop_output
  ({ st with analysis_subagent := sub }, out.getD "Analysis completed")

/-- The `delegate_to_create_report` tool: unconditionally
`await self.create_report_subagent.run(...)` and return
`result.get("output", "Report created")`.  No quota check appears in the
source, although its own docstring says to use it ONCE. -/
def delegate_to_create_report (st : LegalRiskAnalysisAgentState)
    (_analysis_summary : String) (loop_output : Option String) :
    LegalRiskAnalysisAgentState × String :=
  let (sub, out) := st.create_report_subagent.run loop_output
  ({ st with create_report_subagent := sub }, out.getD "Report created")

/-! Concrete sample states shared by the theorems below. -/

/-- A file-write request pending in the gate, as produced by
`create_file_operation_approval` for `report.md`. -/
def sampleRequest : ApprovalRequest :=
  { id := "req-1"
    type := ApprovalType.writeFile
    timestamp := 0
    status := ApprovalStatus.pending
    data := [("file_path", "report.md"), ("content", "# R")]
    agent_name := "agent"
    description := "agent wants to write file: report.md"
    highlights := some [("file", "report.md")] }

/-- An approval system holding exactly `sampleRequest` as pending. -/
def sampleSystem : HumanApprovalSystem :=
  { pending_approvals := [("req-1", sampleRequest)], approval_history := [] }

/-- The sample system after `sampleRequest` was resolved APPROVED: one
history entry, nothing pending. -/
def resolvedSampleSystem : HumanApprovalSystem :=
  (sampleSystem.respond_to_approval "req-1" ApprovalStatus.approved none none).2

/-- The filesystem middleware with its source default root. -/
def agentWorkspace : FilesystemMiddleware :=
  { base_path := "./data/agent_workspace" }

/-- A concrete working directory for the backend process. -/
def hostCwd : List String := ["home", "app"]

/-- The resolved workspace root directory. -/
def workspaceRoot : List String := resolvePath hostCwd agentWorkspace.base_path

/-- C4: resolve is exactly-once and idempotent-safe.  The first
`respond_to_approval` on a pending id returns the request bearing the
supplied status, removes it from the pending set and appends it unchanged to
history; a second call on the same id returns `none` with no state change;
and no later gate operation whatsoever disturbs the stored history entries
(the history up to its current length is frozen). -/
theorem resolve_exactly_once (s : HumanApprovalSystem) (request_id : String)
    (req : ApprovalRequest) (st st2 : ApprovalStatus) (md md2 : Option Data)
    (fb fb2 : Option String) (op : GateOp)
    (h : dictGet s.pending_approvals request_id = some req) :
    (s.respond_to_approval request_id st md fb).1.map ApprovalRequest.status
        = some st ∧
    (s.respond_to_approval request_id st md fb).1.map ApprovalRequest.id
        = some req.id ∧
    dictGet ((s.respond_to_approval request_id st md fb).2).pending_approvals
        request_id = none ∧
    ((s.respond_to_approval request_id st md fb).2).approval_history.take
        s.approval_history.length = s.approval_history ∧
    ((s.respond_to_approval request_id st md fb).2).approval_history.getLast?
        = (s.respond_to_approval request_id st md fb).1 ∧
    ((s.respond_to_approval request_id st md fb).2).respond_to_approval
        request_id st2 md2 fb2
        = (none, (s.respond_to_approval request_id st md fb).2) ∧
    (GateOp.apply op ((s.respond_to_approval request_id st md fb).2)).approval_history.take
        (((s.respond_to_approval request_id st md fb).2).approval_history.length)
        = ((s.respond_to_approval request_id st md fb).2).approval_history := by
  refine ⟨?_, ?_, ?_, ?_, ?_, ?_, ?_⟩
  · simp [HumanApprovalSystem.respond_to_approval, h]
  · simp [HumanApprovalSystem.respond_to_approval, h]
  · simp [HumanApprovalSystem.respond_to_approval, h, dictGet_dictErase_self]
  · simp [HumanApprovalSystem.respond_to_approval, h, List.take_left]
  · simp [HumanApprovalSystem.respond_to_approval, h]
  · simp [HumanApprovalSystem.respond_to_approval, h, dictGet_dictErase_self]
  · exact gateOp_history_frame op _

/-- C4 witness: the theorem applied to `sampleSystem` and its pending
request, resolved APPROVED and then re-resolved REJECTED, with a
`clearPending` as the later operation. -/
theorem resolve_exactly_once_witness :
    dictGet sampleSystem.pending_approvals "req-1" = some sampleRequest ∧
    ((sampleSystem.respond_to_approval "req-1" ApprovalStatus.approved none
        none).1.map ApprovalRequest.status = some ApprovalStatus.approved ∧
      (sampleSystem.respond_to_approval "req-1" ApprovalStatus.approved none
        none).1.map ApprovalRequest.id = some sampleRequest.id ∧
      dictGet ((sampleSystem.respond_to_approval "req-1"
        ApprovalStatus.approved none none).2).pending_approvals "req-1" = none ∧
      ((sampleSystem.respond_to_approval "req-1" ApprovalStatus.approved none
        none).2).approval_history.take sampleSystem.approval_history.length
        = sampleSystem.approval_history ∧
      ((sampleSystem.respond_to_approval "req-1" ApprovalStatus.approved none
        none).2).approval_history.getLast?
        = (sampleSystem.respond_to_approval "req-1" ApprovalStatus.approved
            none none).1 ∧
      ((sampleSystem.respond_to_approval "req-1" ApprovalStatus.approved none
        none).2).respond_to_approval "req-1" ApprovalStatus.rejected none none
        = (none, (sampleSystem.respond_to_approval "req-1"
            ApprovalStatus.approved none none).2) ∧
      (GateOp.apply GateOp.clear ((sampleSystem.respond_to_approval "req-1"
        ApprovalStatus.approved none none).2)).approval_history.take
        (((sampleSystem.respond_to_approval "req-1" ApprovalStatus.approved
            none none).2).approval_history.length)
        = ((sampleSystem.respond_to_approval "req-1" ApprovalStatus.approved
            none none).2).approval_history) :=
  ⟨rfl, resolve_exactly_once sampleSystem "req-1" sampleRequest
    ApprovalStatus.approved ApprovalStatus.rejected none none none none
    GateOp.clear rfl⟩

/-- C5 counterexample: resolving a pending request with EDITED and no
replacement payload is accepted (it does not fail for want of a
replacement), and the resolved request still carries the original payload —
against the claim that EDITED requires a replacement and the carried payload
is never the original. -/
theorem edited_without_payload_accepted :
    (sampleSystem.respond_to_approval "req-1" ApprovalStatus.edited none
        none).1
      = some { sampleRequest with status := ApprovalStatus.edited } ∧
    (sampleSystem.respond_to_approval "req-1" ApprovalStatus.edited none
        none).1.map ApprovalRequest.data
      = some [("file_path", "report.md"), ("content", "# R")] := by
  decide

/-- C5 amended: resolving a pending request with EDITED and a nonempty
replacement payload makes the resolved request carry the replacement; with
EDITED and a missing (or empty) replacement the resolve still succeeds and
the original payload is kept; with APPROVED the original payload is kept
unchanged; with REJECTED any supplied payload is ignored. -/
theorem edited_payload_substitution_amended (s : HumanApprovalSystem)
    (request_id : String) (req : ApprovalRequest) (d : Data)
    (md : Option Data) (fb : Option String)
    (h : dictGet s.pending_approvals request_id = some req) (hd : d ≠ []) :
    (s.respond_to_approval request_id ApprovalStatus.edited (some d)
        fb).1.map ApprovalRequest.data = some d ∧
    (s.respond_to_approval request_id ApprovalStatus.edited none fb).1.map
        ApprovalRequest.data = some req.data ∧
    (s.respond_to_approval request_id ApprovalStatus.edited (some []) fb).1.map
        ApprovalRequest.data = some req.data ∧
    (s.respond_to_approval request_id ApprovalStatus.approved md fb).1.map
        ApprovalRequest.data = some req.data ∧
    (s.respond_to_approval request_id ApprovalStatus.rejected md fb).1.map
        ApprovalRequest.data = some req.data := by
  have hd' : pyTruthy (some d) = true := by
    cases d with
    | nil => simp at hd
    | cons a l => simp [pyTruthy]
  refine ⟨?_, ?_, ?_, ?_, ?_⟩
  · simp only [HumanApprovalSystem.respond_to_approval, h, resolvedData, hd',
      and_true, if_pos rfl, Option.map_some, Option.getD_some, if_true]
    simp [resolvedData, hd']
  · simp [HumanApprovalSystem.respond_to_approval, h, resolvedData, pyTruthy]
  · simp [HumanApprovalSystem.respond_to_approval, h, resolvedData, pyTruthy]
  · simp [HumanApprovalSystem.respond_to_approval, h, resolvedData, pyTruthy]
  · simp [HumanApprovalSystem.respond_to_approval, h, resolvedData, pyTruthy]

/-- C5 witness: the amended theorem applied to `sampleSystem` with the
replacement payload `[("file_path", "edited.md")]`. -/
theorem edited_payload_substitution_amended_witness :
    dictGet sampleSystem.pending_approvals "req-1" = some sampleRequest ∧
    ([("file_path", "edited.md")] : Data) ≠ [] ∧
    ((sampleSystem.respond_to_approval "req-1" ApprovalStatus.edited
        (some [("file_path", "edited.md")]) none).1.map ApprovalRequest.data
        = some [("file_path", "edited.md")] ∧
      (sampleSystem.respond_to_approval "req-1" ApprovalStatus.edited none
        none).1.map ApprovalRequest.data = some sampleRequest.data ∧
      (sampleSystem.respond_to_approval "req-1" ApprovalStatus.edited
        (some []) none).1.map ApprovalRequest.data = some sampleRequest.data ∧
      (sampleSystem.respond_to_approval "req-1" ApprovalStatus.approved none
        none).1.map ApprovalRequest.data = some sampleRequest.data ∧
      (sampleSystem.respond_to_approval "req-1" ApprovalStatus.rejected none
        none).1.map ApprovalRequest.data = some sampleRequest.data) :=
  ⟨rfl, by decide,
    edited_payload_substitution_amended sampleSystem "req-1" sampleRequest
      [("file_path", "edited.md")] none none rfl (by decide)⟩

/-- C7: after `clear_pending_approvals` the pending set is empty and every
request that was pending has been appended to history with its record — in
particular its status — unchanged: when all pending requests carried status
PENDING (as every reachable request in the pending set does), the appended
history entries still carry status PENDING, never a terminal disposition. -/
theorem clear_pending_moves_all_unchanged (s : HumanApprovalSystem)
    (h : (dictValues s.pending_approvals).all
        (fun r => r.status == ApprovalStatus.pending) = true) :
    s.clear_pending_approvals.pending_approvals = [] ∧
    s.clear_pending_approvals.approval_history
      = s.approval_history ++ dictValues s.pending_approvals ∧
    (s.clear_pending_approvals.approval_history.drop
        s.approval_history.length).all
        (fun r => r.status == ApprovalStatus.pending) = true := by
  refine ⟨rfl, rfl, ?_⟩
  simpa [HumanApprovalSystem.clear_pending_approvals, List.drop_left] using h

/-- C7 witness: the theorem applied to `sampleSystem`, whose only pending
request has status PENDING. -/
theorem clear_pending_moves_all_unchanged_witness :
    (dictValues sampleSystem.pending_approvals).all
        (fun r => r.status == ApprovalStatus.pending) = true ∧
    (sampleSystem.clear_pending_approvals.pending_approvals = [] ∧
      sampleSystem.clear_pending_approvals.approval_history
        = sampleSystem.approval_history
            ++ dictValues sampleSystem.pending_approvals ∧
      (sampleSystem.clear_pending_approvals.approval_history.drop
          sampleSystem.approval_history.length).all
          (fun r => r.status == ApprovalStatus.pending) = true) :=
  ⟨by decide, clear_pending_moves_all_unchanged sampleSystem (by decide)⟩

/-- C9 counterexample: on a system whose history holds one resolved request,
`get_approval_history 0` returns that whole history — not the empty
sequence the claim promises for limit 0 (Python `history[-0:]` is
`history[0:]`). -/
theorem history_zero_limit_returns_all :
    resolvedSampleSystem.approval_history.length = 1 ∧
    resolvedSampleSystem.get_approval_history 0
      = resolvedSampleSystem.approval_history ∧
    resolvedSampleSystem.get_approval_history 0 ≠ [] := by
  decide

/-- C9 amended: for every positive limit, `get_approval_history` returns the
`min limit length` most recently resolved requests — a suffix of the
append-only history, hence ordered newest-last; `get_approval_history 0`
returns the entire history. -/
theorem history_limit_amended (s : HumanApprovalSystem) (k : Nat) :
    List.IsSuffix (s.get_approval_history (k + 1)) s.approval_history ∧
    (s.get_approval_history (k + 1)).length
      = min (k + 1) s.approval_history.length ∧
    s.get_approval_history 0 = s.approval_history := by
  refine ⟨?_, ?_, ?_⟩
  · simp only [HumanApprovalSystem.get_approval_history, if_neg
      (Nat.succ_ne_zero k)]
    exact List.drop_suffix _ _
  · simp only [HumanApprovalSystem.get_approval_history, if_neg
      (Nat.succ_ne_zero k), List.length_drop]
    omega
  · simp [HumanApprovalSystem.get_approval_history]

/-- C10: responding to an id that is not pending returns `None` and leaves
the whole approval-system state (pending set, history, every stored
request) unchanged. -/
theorem respond_unknown_id_noop (s : HumanApprovalSystem)
    (request_id : String) (st : ApprovalStatus) (md : Option Data)
    (fb : Option String)
    (h : dictGet s.pending_approvals request_id = none) :
    s.respond_to_approval request_id st md fb = (none, s) := by
  simp [HumanApprovalSystem.respond_to_approval, h]

/-- C10 witness: the theorem applied to the already-resolved sample system
and its consumed id. -/
theorem respond_unknown_id_noop_witness :
    dictGet resolvedSampleSystem.pending_approvals "req-1" = none ∧
    resolvedSampleSystem.respond_to_approval "req-1" ApprovalStatus.rejected
        none none = (none, resolvedSampleSystem) :=
  ⟨by decide, respond_unknown_id_noop resolvedSampleSystem "req-1"
    ApprovalStatus.rejected none none (by decide)⟩

/-! Scenario A state for the todo tracker. -/

/-- Empty todo tracker. -/
def scenarioTodos0 : TodoListMiddleware := { todos := [] }

/-- Tracker after `add("Review contract X")` (status defaulted to
pending). -/
def scenarioTodos1 : TodoListMiddleware :=
  scenarioTodos0.add_todo "Review contract X" "pending"

/-- Tracker after `setStatus(0, "completed")`. -/
def scenarioTodos2 : TodoListMiddleware :=
  scenarioTodos1.update_todo 0 "completed"

/-- C8: Scenario A.  After `add("Review contract X")` and `setStatus(0,
"completed")`, the rendered text's line 1 — the line numbered 1, at index 1
after the `"Current todos:"` header line — contains the completed glyph and
the word "completed"; and rendering the empty tracker emits the fixed
sentinel `"No todos yet."`. -/
theorem todo_render_scenario_a :
    scenarioTodos2.format_todos
      = "Current todos:\n1. [✓] Review contract X (completed)\n" ∧
    (linesOf scenarioTodos2.format_todos).get? 1
      = some "1. [✓] Review contract X (completed)" ∧
    "1. [✓] Review contract X (completed)"
      = "1. [" ++ "✓" ++ "] Review contract X (" ++ "completed" ++ ")" ∧
    scenarioTodos0.format_todos = "No todos yet." := by
  decide

/-! Scenario C state for delegation: the orchestrator delegates twice to the
Create Report subagent, whose documented quota is 1. -/

/-- Fresh orchestrator: neither subordinate loop has been entered. -/
def initialOrchestrator : LegalRiskAnalysisAgentState :=
  { analysis_subagent := { loop_entries := 0 }
    create_report_subagent := { loop_entries := 0 } }

/-- First `delegate_to_create_report` invocation of the session. -/
def reportDelegationOnce : LegalRiskAnalysisAgentState × String :=
  delegate_to_create_report initialOrchestrator "all analysis findings"
    (some "REPORT RUN ONE")

/-- Second `delegate_to_create_report` invocation of the same session. -/
def reportDelegationTwice : LegalRiskAnalysisAgentState × String :=
  delegate_to_create_report reportDelegationOnce.1 "all analysis findings"
    (some "REPORT RUN TWO")

/-- C1 failing run: the source's delegation tools hold no quota counter and
perform no check before `run`, so the second delegation to the Create Report
subagent (documented quota 1) enters its loop a second time and returns the
loop's output — no refusal result explaining exhaustion is ever produced. -/
theorem quota_never_enforced_on_create_report :
    reportDelegationOnce.1.create_report_subagent.loop_entries = 1 ∧
    reportDelegationTwice.1.create_report_subagent.loop_entries = 2 ∧
    reportDelegationOnce.2 = "REPORT RUN ONE" ∧
    reportDelegationTwice.2 = "REPORT RUN TWO" := by
  decide

/-! Scenario B state for approval gating of a file write. -/

/-- The file-write approval request for `report.md`, submitted through
`create_file_operation_approval`. -/
def scenarioBSubmit : ApprovalRequest × HumanApprovalSystem :=
  create_file_operation_approval HumanApprovalSystem.init "appr-1" 0
    ApprovalType.writeFile "report.md" (some "# R") "agent"

/-- The gate state after the human resolves that request REJECTED. -/
def scenarioBReject : Option ApprovalRequest × HumanApprovalSystem :=
  scenarioBSubmit.2.respond_to_approval scenarioBSubmit.1.id
    ApprovalStatus.rejected none none

/-- The write the agent's tool performs.  `FilesystemMiddleware.write_file`
takes no approval-system argument because the source method never consults
the gate: the write proceeds identically whatever the gate holds. -/
def scenarioBWrite : String × FileSystem :=
  agentWorkspace.write_file hostCwd [] "report.md" "# R"

/-- C2 failing run: the file-write request is resolved REJECTED, yet the
write tool — which never submits to or reads the gate — reports success and
creates the file, so the subsequent workspace read returns `"# R"` instead
of failing not-found. -/
theorem rejected_write_still_executes :
    scenarioBReject.1.map ApprovalRequest.status
      = some ApprovalStatus.rejected ∧
    scenarioBWrite.1 = "File written successfully: report.md" ∧
    agentWorkspace.read_file hostCwd scenarioBWrite.2 "report.md" = "# R" := by
  decide

/-- A write whose path climbs out of the workspace with `".."` segments. -/
def escapeWrite : String × FileSystem :=
  agentWorkspace.write_file hostCwd [] "../../escape.md" "ESCAPED"

/-- A host filesystem holding a foreign file outside the workspace root. -/
def foreignHostFs : FileSystem := [(["home", "secret.txt"], "TOP SECRET CONTENT")]

/-- C3 failing run: the source concatenates `base_path + "/" + file_path`
with no normalization or containment check, so writing
`"../../escape.md"` creates a file outside the resolved workspace root, and
reading `"../../../secret.txt"` returns the foreign file's content instead
of a not-found failure. -/
theorem sandbox_escape_on_traversal :
    escapeWrite.2 = [(["home", "app", "escape.md"], "ESCAPED")] ∧
    workspaceRoot.isPrefixOf ["home", "app", "escape.md"] = false ∧
    agentWorkspace.read_file hostCwd foreignHostFs "../../../secret.txt"
      = "TOP SECRET CONTENT" ∧
    workspaceRoot.isPrefixOf ["home", "secret.txt"] = false := by
  decide

/-- Result of reading an absent workspace file. -/
def missingReadResult : String :=
  agentWorkspace.read_file hostCwd [] "missing.txt"

/-- C6 failing run: reading an absent file returns the exception rendered as
plain text through the normal content channel, and a successful read of a
file whose content happens to be that very text returns the identical
string — the caller cannot distinguish failure from content. -/
theorem read_error_text_indistinguishable :
    missingReadResult = "Error reading file: [Errno 2] No such file or directory: ./data/agent_workspace/missing.txt" ∧
    agentWorkspace.read_file hostCwd
        [(resolvePath hostCwd "./data/agent_workspace/other.txt",
          missingReadResult)] "other.txt"
      = missingReadResult := by
  decide

end LegalRiskApp
